import Mathlib

/-!
Shallow embedding of `regions/shapes/circle.py`: the two region shape
classes `CirclePixelRegion` and `CircleSkyRegion`, their constructors,
`area`, `__contains__`, `to_sky` and `to_pixel`.

Numbers (coordinates, radii, scales) are modelled as rationals so that the
operations are executable; the two places where the source computes a
transcendental value (`math.pi * r ** 2` and `np.hypot`) take values in `ℝ`.
External collaborators (astropy's WCS object, frame transforms and the
repository helper `skycoord_to_pixel_scale_angle`, which is not among the
sources) are abstracted as records of functions, following the spec's
"injected coordinate-transform capability".
Python exceptions are modelled by an `Except` return value.
-/

/-- A Python `dict` with string keys, as used for the `meta` and `visual`
annotation/style mappings (values simplified to strings; the claims only
concern the mappings' emptiness). -/
abbrev PyDict := List (String × String)

/-- A 0D `PixCoord`: a point in pixel coordinates. -/
structure PixCoord where
  x : ℚ
  y : ℚ
  deriving DecidableEq, Repr

/-- A 0D `SkyCoord`: spherical longitude/latitude plus the frame name
(`skycoord.name` in astropy). -/
structure SkyCoord where
  lon : ℚ
  lat : ℚ
  name : String
  deriving DecidableEq, Repr

/-- An astropy `Quantity`: a value together with its unit's physical type
(`quantity.unit.physical_type`, e.g. `"angle"`). -/
structure Quantity where
  value : ℚ
  physicalType : String
  deriving DecidableEq, Repr

/-- The Python exceptions raised by the embedded code:
`NotImplementedError` (raised explicitly by the source) and the
`UnboundLocalError`/`NameError` raised when a local variable is read on a
path where it was never assigned. -/
inductive PyError
  | notImplementedError
  | nameError
  deriving DecidableEq, Repr

/-- The state of a `CirclePixelRegion` after `__init__`. -/
structure CirclePixelRegion where
  center : PixCoord
  radius : ℚ
  meta : PyDict
  visual : PyDict
  deriving DecidableEq, Repr

/-- The state of a `CircleSkyRegion` after `__init__`. -/
structure CircleSkyRegion where
  center : SkyCoord
  radius : Quantity
  meta : PyDict
  visual : PyDict
  deriving DecidableEq, Repr

/-- Python `m or {}` on an optional dict argument: `None` and the empty
dict are falsy and yield a fresh empty dict; any non-empty dict is kept. -/
def orEmptyDict (m : Option PyDict) : PyDict :=
  match m with
  | none => []
  | some l => if l.isEmpty then [] else l

/-- `CirclePixelRegion.__init__(center, radius, meta=None, visual=None)`:
stores the center and radius and normalises `meta`/`visual` with `or {}`. -/
def CirclePixelRegion.init (center : PixCoord) (radius : ℚ)
    (meta visual : Option PyDict) : CirclePixelRegion :=
  { center := center, radius := radius,
    meta := orEmptyDict meta, visual := orEmptyDict visual }

/-- `CircleSkyRegion.__init__(center, radius, meta=None, visual=None)`. -/
def CircleSkyRegion.init (center : SkyCoord) (radius : Quantity)
    (meta visual : Option PyDict) : CircleSkyRegion :=
  { center := center, radius := radius,
    meta := orEmptyDict meta, visual := orEmptyDict visual }

/-- The part of an astropy `WCS` object that `CircleSkyRegion.to_pixel`
reads: the reference-point world coordinates `crval`, the world-to-pixel
projection `wcs_world2pix(lon, lat, 0)`, and the celestial frame resolved
by `wcs.utils._wcs_to_celestial_frame_builtin` (a frame name). -/
structure WCS where
  crval : ℚ × ℚ
  world2pix : ℚ → ℚ → ℚ × ℚ
  frameName : String

/-- The injected coordinate-transform capability (spec §6): astropy frame
transformation and angular separation, plus the repository helper
`skycoord_to_pixel_scale_angle` from `regions.utils.wcs_helpers`.

Modelled from the spec: `skycoord_to_pixel_scale_angle` is code of this
repository that is not among the sources; per the spec it returns, for a
sky position, its pixel position together with the local
pixel-scale-and-rotation there, as a tuple `(xc, yc, scale, angle)`. -/
structure AstroLib where
  transform_to : SkyCoord → String → SkyCoord
  skycoord_to_pixel_scale_angle : SkyCoord → ℚ × ℚ × ℚ × ℚ
  separation : SkyCoord → SkyCoord → Quantity

/-- `CirclePixelRegion.area`: `math.pi * self.radius ** 2`. Pure. -/
noncomputable def CirclePixelRegion.area (c : CirclePixelRegion) : ℝ :=
  Real.pi * (c.radius : ℝ) ^ 2

/-- `CirclePixelRegion.__contains__`:
`np.hypot(pixcoord.x - self.center.x, pixcoord.y - self.center.y) < self.radius`. -/
def CirclePixelRegion.contains (c : CirclePixelRegion) (pixcoord : PixCoord) : Prop :=
  Real.sqrt (((pixcoord.x - c.center.x : ℚ) : ℝ) ^ 2
      + ((pixcoord.y - c.center.y : ℚ) : ℝ) ^ 2) < (c.radius : ℝ)

/-- `CirclePixelRegion.to_sky`: raises `NotImplementedError("")`
unconditionally, before any computation. -/
def CirclePixelRegion.to_sky (_c : CirclePixelRegion) (_mywcs : WCS)
    (_mode : String) (_tolerance : Option ℚ) : Except PyError CircleSkyRegion :=
  .error .notImplementedError

/-- `CirclePixelRegion.to_mask`: raises `NotImplementedError("")`. -/
def CirclePixelRegion.to_mask (_c : CirclePixelRegion) (_mode : String) :
    Except PyError Unit :=
  .error .notImplementedError

/-- `CircleSkyRegion.area`: `math.pi * self.radius ** 2` on the angular
radius (the unit bookkeeping is astropy's; the value is `π·value²`). -/
noncomputable def CircleSkyRegion.area (c : CircleSkyRegion) : ℝ :=
  Real.pi * (c.radius.value : ℝ) ^ 2

/-- `CircleSkyRegion.__contains__`:
`return self.center.separation(skycoord)` — it returns the angular
separation (a `Quantity`), not a boolean. -/
def CircleSkyRegion.contains (lib : AstroLib) (c : CircleSkyRegion)
    (skycoord : SkyCoord) : Quantity :=
  lib.separation c.center skycoord

/-- `CircleSkyRegion.to_pixel(mywcs, mode='local', tolerance=None)`,
line by line:
* `mode != 'local'` or a non-`None` `tolerance` raise `NotImplementedError`;
* the celestial frame of `mywcs` is resolved and `center` transformed into it;
* `xpix, ypix = mywcs.wcs_world2pix(...)` is computed and then never used;
* on the `physical_type == 'angle'` branch, `central_pos` is the `SkyCoord`
  built from `mywcs`'s `crval` in the frame named like `self.center`, the
  helper returns `(xc, yc, scale, angle)` there, and
  `radius_pix = (scale * self.radius).to(u.pixel).value`, i.e. the scale
  times the radius value;
* on the other branch `radius_pix = self.radius.value`, but the following
  `np.array([xc, yc])` reads `xc`/`yc`, which are only assigned on the
  `'angle'` branch: Python raises `UnboundLocalError` (a `NameError`);
* the result is `CirclePixelRegion(pixel_positions, radius_pix)` with
  `pixel_positions = [xc, yc]` and default (`None`) `meta`/`visual`. -/
def CircleSkyRegion.to_pixel (lib : AstroLib) (c : CircleSkyRegion)
    (mywcs : WCS) (mode : String) (tolerance : Option ℚ) :
    Except PyError CirclePixelRegion :=
  if mode ≠ "local" then .error .notImplementedError
  else if tolerance ≠ none then .error .notImplementedError
  else
    let wcsframe := mywcs.frameName
    let center_in_wcsframe := lib.transform_to c.center wcsframe
    let xpix_ypix := mywcs.world2pix center_in_wcsframe.lon center_in_wcsframe.lat
    if c.radius.physicalType = "angle" then
      let central_pos : SkyCoord := ⟨mywcs.crval.1, mywcs.crval.2, c.center.name⟩
      let t := lib.skycoord_to_pixel_scale_angle central_pos
      let xc := t.1
      let yc := t.2.1
      let scale := t.2.2.1
      let radius_pix := scale * c.radius.value
      let pixel_positions : PixCoord := ⟨xc, yc⟩
      let _unused := xpix_ypix
      .ok (CirclePixelRegion.init pixel_positions radius_pix none none)
    else
      .error .nameError

/-! ### Concrete stub inputs

A substitutable test double for the transform capability (spec §9), with a
position-dependent local scale, and concrete circles, used to exercise the
conversions on explicit inputs. -/

/-- A stub WCS: reference point at world `(0, 0)`, world-to-pixel projection
shifting by `100` in each axis, celestial frame `"icrs"`. -/
def wcs0 : WCS :=
  { crval := (0, 0)
    world2pix := fun lon lat => (lon + 100, lat + 100)
    frameName := "icrs" }

/-- A stub transform capability: frame transformation is the identity on
coordinates, and the scale-and-rotation helper reports pixel position
`(lon, lat)`, local scale `lat + 1` (so the scale differs from point to
point) and rotation `0`. -/
def lib0 : AstroLib :=
  { transform_to := fun p _ => p
    skycoord_to_pixel_scale_angle := fun p => (p.lon, p.lat, p.lat + 1, 0)
    separation := fun _ _ => ⟨0, "angle"⟩ }

/-- A sky circle at `(10, 20)` with a 2-unit angular radius and non-empty
`meta` and `visual` mappings. -/
def skyC0 : CircleSkyRegion :=
  CircleSkyRegion.init ⟨10, 20, "icrs"⟩ ⟨2, "angle"⟩
    (some [("tag", "a")]) (some [("color", "red")])

/-- A sky circle whose radius is not an angular quantity (empty physical
type, i.e. dimensionless). -/
def skyC1 : CircleSkyRegion :=
  CircleSkyRegion.init ⟨10, 20, "icrs"⟩ ⟨7, ""⟩ none none

/-! ### Evaluation lemmas for `to_pixel` -/

/-- With `mode = "local"`, default tolerance and an angular radius,
`to_pixel` returns the circle built from the scale-and-rotation helper's
output at the reference point `crval`. -/
theorem to_pixel_local_angle_eval (lib : AstroLib) (c : CircleSkyRegion)
    (mywcs : WCS) (hphys : c.radius.physicalType = "angle") :
    CircleSkyRegion.to_pixel lib c mywcs "local" none =
      .ok (CirclePixelRegion.init
        ⟨(lib.skycoord_to_pixel_scale_angle
            ⟨mywcs.crval.1, mywcs.crval.2, c.center.name⟩).1,
         (lib.skycoord_to_pixel_scale_angle
            ⟨mywcs.crval.1, mywcs.crval.2, c.center.name⟩).2.1⟩
        ((lib.skycoord_to_pixel_scale_angle
            ⟨mywcs.crval.1, mywcs.crval.2, c.center.name⟩).2.2.1 * c.radius.value)
        none none) := by
  unfold CircleSkyRegion.to_pixel
  simp [hphys]

/-- With `mode = "local"`, default tolerance and a non-angular radius,
`to_pixel` raises: `xc`/`yc` are unbound on that path. -/
theorem to_pixel_local_nonangle_eval (lib : AstroLib) (c : CircleSkyRegion)
    (mywcs : WCS) (hphys : c.radius.physicalType ≠ "angle") :
    CircleSkyRegion.to_pixel lib c mywcs "local" none = .error .nameError := by
  unfold CircleSkyRegion.to_pixel
  simp [hphys]

/-! ### Claims -/

/-- C1: the claim says the returned center is the world-to-pixel projection
of the circle's center; on the stub input the projection of the (transformed)
center is `(110, 120)`, yet `to_pixel` returns the circle centered at
`(0, 0)` — the pixel position that the scale-and-rotation helper reports for
the WCS reference point `crval` — while the computed `xpix, ypix` are
discarded. -/
theorem to_pixel_center_is_refpoint_not_projection :
    CircleSkyRegion.to_pixel lib0 skyC0 wcs0 "local" none
        = .ok ⟨⟨0, 0⟩, 2, [], []⟩
      ∧ wcs0.world2pix (lib0.transform_to skyC0.center wcs0.frameName).lon
          (lib0.transform_to skyC0.center wcs0.frameName).lat = (110, 120)
      ∧ (⟨110, 120⟩ : PixCoord) ≠ ⟨0, 0⟩ := by
  refine ⟨?_, ?_, ?_⟩
  · norm_num [CircleSkyRegion.to_pixel, lib0, skyC0, wcs0, CircleSkyRegion.init,
      CirclePixelRegion.init, orEmptyDict]
  · norm_num [lib0, skyC0, wcs0, CircleSkyRegion.init]
  · norm_num [PixCoord.mk.injEq]

/-- C2 counterexample: on the stub input the local scale at the circle's
center `(10, 20)` is `21`, so the claim predicts a pixel radius of
`21 * 2 = 42`; `to_pixel` instead returns radius `2` (the scale `1` at the
reference point `crval = (0, 0)` times the angular radius). -/
theorem to_pixel_radius_ne_center_scale :
    CircleSkyRegion.to_pixel lib0 skyC0 wcs0 "local" none
        = .ok ⟨⟨0, 0⟩, 2, [], []⟩
      ∧ (lib0.skycoord_to_pixel_scale_angle skyC0.center).2.2.1
          * skyC0.radius.value = 42
      ∧ (2 : ℚ) ≠ 42 := by
  refine ⟨?_, ?_, ?_⟩
  · norm_num [CircleSkyRegion.to_pixel, lib0, skyC0, wcs0, CircleSkyRegion.init,
      CirclePixelRegion.init, orEmptyDict]
  · norm_num [lib0, skyC0, CircleSkyRegion.init]
  · norm_num

/-- C2 (amended): for an angular radius, the pixel radius returned by
`to_pixel(wcs, mode='local', tolerance=None)` equals the angular radius
times the local pixel-per-angle scale that the transform capability returns
at the WCS reference point (`crval`, taken in the frame named like the
circle's center), not at the circle's center. -/
theorem to_pixel_radius_eq_refpoint_scale (lib : AstroLib)
    (c : CircleSkyRegion) (mywcs : WCS) (res : CirclePixelRegion)
    (hphys : c.radius.physicalType = "angle")
    (h : CircleSkyRegion.to_pixel lib c mywcs "local" none = .ok res) :
    res.radius = (lib.skycoord_to_pixel_scale_angle
        ⟨mywcs.crval.1, mywcs.crval.2, c.center.name⟩).2.2.1
      * c.radius.value := by
  rw [to_pixel_local_angle_eval lib c mywcs hphys] at h
  injection h with h
  rw [← h]
  rfl

/-- C2 witness: the amended radius law, instantiated on the stub input. -/
theorem to_pixel_radius_eq_refpoint_scale_witness :
    skyC0.radius.physicalType = "angle"
      ∧ CircleSkyRegion.to_pixel lib0 skyC0 wcs0 "local" none
          = .ok ⟨⟨0, 0⟩, 2, [], []⟩
      ∧ (⟨⟨0, 0⟩, 2, [], []⟩ : CirclePixelRegion).radius
          = (lib0.skycoord_to_pixel_scale_angle
              ⟨wcs0.crval.1, wcs0.crval.2, skyC0.center.name⟩).2.2.1
            * skyC0.radius.value := by
  have h : CircleSkyRegion.to_pixel lib0 skyC0 wcs0 "local" none
      = .ok ⟨⟨0, 0⟩, 2, [], []⟩ := by
    norm_num [CircleSkyRegion.to_pixel, lib0, skyC0, wcs0, CircleSkyRegion.init,
      CirclePixelRegion.init, orEmptyDict]
  exact ⟨rfl, h, to_pixel_radius_eq_refpoint_scale lib0 skyC0 wcs0 _ rfl h⟩

/-- C3: on a sky circle whose radius is not an angular quantity,
`to_pixel(wcs, mode='local', tolerance=None)` does not return a pixel
circle with the radius passed through: it raises (`xc`/`yc` are read but
only assigned on the angular branch). -/
theorem to_pixel_nonangle_raises :
    CircleSkyRegion.to_pixel lib0 skyC1 wcs0 "local" none
      = .error .nameError := rfl

/-- C4: `to_pixel` fails with the unsupported-option error exactly when the
mode is not `"local"` or the tolerance is not the default `None`; with
`mode = "local"` and default tolerance it never raises that error. -/
theorem to_pixel_notimplemented_iff (lib : AstroLib) (c : CircleSkyRegion)
    (mywcs : WCS) (mode : String) (tolerance : Option ℚ) :
    CircleSkyRegion.to_pixel lib c mywcs mode tolerance
        = .error .notImplementedError
      ↔ (mode ≠ "local" ∨ tolerance ≠ none) := by
  unfold CircleSkyRegion.to_pixel
  by_cases hm : mode = "local"
  · by_cases ht : tolerance = none
    · subst hm
      subst ht
      simp only [ne_eq, not_true_eq_false, false_or, if_false,
        Option.isSome_none, ite_false]
      split <;> simp
    · simp [hm, ht]
  · simp [hm]

/-- Modelled from the spec's words: the Euclidean distance between a point
and a center, against which the source's `np.hypot` test is compared. -/
noncomputable def euclideanDistance (p q : PixCoord) : ℝ :=
  Real.sqrt (((p.x - q.x : ℚ) : ℝ) ^ 2 + ((p.y - q.y : ℚ) : ℝ) ^ 2)

/-- C5: for every pixel circle and point, `CirclePixelRegion.contains`
holds exactly when the Euclidean distance from the point to the center is
strictly below the radius; a boundary point (distance equal to the radius)
is never contained; and for a non-negative radius (the spec's invariant)
the test is equivalent to the squared-distance comparison. -/
theorem pixel_contains_iff_dist (c : CirclePixelRegion) (p : PixCoord) :
    (c.contains p ↔ euclideanDistance p c.center < (c.radius : ℝ))
      ∧ (euclideanDistance p c.center = (c.radius : ℝ) → ¬ c.contains p)
      ∧ (0 ≤ c.radius → (c.contains p ↔
          ((p.x - c.center.x : ℚ) : ℝ) ^ 2 + ((p.y - c.center.y : ℚ) : ℝ) ^ 2
            < (c.radius : ℝ) ^ 2)) := by
  refine ⟨Iff.rfl, ?_, ?_⟩
  · intro he hc
    have hc' : euclideanDistance p c.center < (c.radius : ℝ) := hc
    rw [he] at hc'
    exact lt_irrefl _ hc'
  · intro hr
    rcases lt_or_eq_of_le hr with h0 | h0
    · have h0' : (0 : ℝ) < (c.radius : ℝ) := by exact_mod_cast h0
      exact Real.sqrt_lt' h0'
    · have hcast : (c.radius : ℝ) = 0 := by exact_mod_cast h0.symm
      unfold CirclePixelRegion.contains
      rw [hcast]
      constructor
      · intro hlt
        exact absurd hlt (not_lt.mpr (Real.sqrt_nonneg _))
      · intro hlt
        have hE : (0 : ℝ) ≤ ((p.x - c.center.x : ℚ) : ℝ) ^ 2
            + ((p.y - c.center.y : ℚ) : ℝ) ^ 2 := by positivity
        rw [show ((0 : ℝ)) ^ 2 = 0 by norm_num] at hlt
        exact absurd hlt (not_lt.mpr hE)

/-- C5 witness: the circle at `(0, 0)` with radius `5` does not contain
`(3, 4)` — the distance is exactly `5`, and the boundary is excluded. -/
theorem pixel_contains_witness :
    (0 : ℚ) ≤ 5 ∧ ¬ CirclePixelRegion.contains ⟨⟨0, 0⟩, 5, [], []⟩ ⟨3, 4⟩ := by
  refine ⟨by norm_num, fun hc => ?_⟩
  have hsq := (pixel_contains_iff_dist ⟨⟨0, 0⟩, 5, [], []⟩ ⟨3, 4⟩).2.2 (by norm_num)
  have := hsq.mp hc
  norm_num at this

/-- C6: `CircleSkyRegion.contains` returns the angular separation between
the circle's center and the point — a `Quantity`, not a boolean containment
test. -/
theorem sky_contains_returns_separation (lib : AstroLib)
    (c : CircleSkyRegion) (skycoord : SkyCoord) :
    CircleSkyRegion.contains lib c skycoord = lib.separation c.center skycoord :=
  rfl

/-- C7: `CirclePixelRegion.to_sky` fails with `NotImplementedError` for
every receiver and every argument combination, unconditionally. -/
theorem to_sky_always_fails (c : CirclePixelRegion) (mywcs : WCS)
    (mode : String) (tolerance : Option ℚ) :
    c.to_sky mywcs mode tolerance = .error .notImplementedError :=
  rfl

/-- C8: whenever `to_pixel` returns a pixel circle, that circle's `meta`
and `visual` mappings are empty, even when the source sky circle carries
non-empty ones — the result is constructed with the default (`None`)
annotations, so the source's mappings are not propagated. -/
theorem to_pixel_drops_meta_visual (lib : AstroLib) (c : CircleSkyRegion)
    (mywcs : WCS) (mode : String) (tolerance : Option ℚ)
    (res : CirclePixelRegion)
    (_hm : c.meta ≠ []) (_hv : c.visual ≠ [])
    (h : CircleSkyRegion.to_pixel lib c mywcs mode tolerance = .ok res) :
    res.meta = [] ∧ res.visual = [] := by
  unfold CircleSkyRegion.to_pixel at h
  split at h
  · simp at h
  · split at h
    · simp at h
    · split at h
      · injection h with h
        rw [← h]
        exact ⟨rfl, rfl⟩
      · simp at h

/-- C8 witness: `skyC0` carries non-empty `meta` and `visual`, yet its
converted pixel circle has empty ones. -/
theorem to_pixel_drops_meta_visual_witness :
    skyC0.meta ≠ [] ∧ skyC0.visual ≠ []
      ∧ CircleSkyRegion.to_pixel lib0 skyC0 wcs0 "local" none
          = .ok ⟨⟨0, 0⟩, 2, [], []⟩
      ∧ (⟨⟨0, 0⟩, 2, [], []⟩ : CirclePixelRegion).meta = []
      ∧ (⟨⟨0, 0⟩, 2, [], []⟩ : CirclePixelRegion).visual = [] := by
  have h : CircleSkyRegion.to_pixel lib0 skyC0 wcs0 "local" none
      = .ok ⟨⟨0, 0⟩, 2, [], []⟩ := by
    norm_num [CircleSkyRegion.to_pixel, lib0, skyC0, wcs0, CircleSkyRegion.init,
      CirclePixelRegion.init, orEmptyDict]
  have hd := to_pixel_drops_meta_visual lib0 skyC0 wcs0 "local" none _
    (by simp [skyC0, CircleSkyRegion.init, orEmptyDict])
    (by simp [skyC0, CircleSkyRegion.init, orEmptyDict]) h
  exact ⟨by simp [skyC0, CircleSkyRegion.init, orEmptyDict],
    by simp [skyC0, CircleSkyRegion.init, orEmptyDict], h, hd.1, hd.2⟩

/-- C9: `area` on both region classes is `π · r²` on the stored radius
(value), for every circle; it reads only the radius and has no effects. -/
theorem area_eq_pi_radius_sq :
    (∀ c : CirclePixelRegion, c.area = Real.pi * (c.radius : ℝ) ^ 2)
      ∧ (∀ c : CircleSkyRegion, c.area = Real.pi * (c.radius.value : ℝ) ^ 2) :=
  ⟨fun _ => rfl, fun _ => rfl⟩

/-- C10: both constructors replace a falsy `meta`/`visual` argument
(`None` or an empty dict) by a fresh empty mapping, so the stored fields
are always mappings (their type in this model is `PyDict`, never an
optional). -/
theorem init_empty_on_falsy :
    (∀ (center : PixCoord) (radius : ℚ) (m v : Option PyDict),
        (m = none ∨ m = some []) →
          (CirclePixelRegion.init center radius m v).meta = [])
      ∧ (∀ (center : PixCoord) (radius : ℚ) (m v : Option PyDict),
          (v = none ∨ v = some []) →
            (CirclePixelRegion.init center radius m v).visual = [])
      ∧ (∀ (center : SkyCoord) (radius : Quantity) (m v : Option PyDict),
          (m = none ∨ m = some []) →
            (CircleSkyRegion.init center radius m v).meta = [])
      ∧ (∀ (center : SkyCoord) (radius : Quantity) (m v : Option PyDict),
          (v = none ∨ v = some []) →
            (CircleSkyRegion.init center radius m v).visual = []) := by
  refine ⟨?_, ?_, ?_, ?_⟩ <;>
    · intro center radius m v hmv
      rcases hmv with rfl | rfl <;> rfl

/-- C10 witness: omitted (`None`) and empty-dict arguments both store an
empty mapping, on both classes. -/
theorem init_empty_on_falsy_witness :
    (CirclePixelRegion.init ⟨0, 0⟩ 1 none (some [])).meta = []
      ∧ (CirclePixelRegion.init ⟨0, 0⟩ 1 none (some [])).visual = []
      ∧ (CircleSkyRegion.init ⟨0, 0, "icrs"⟩ ⟨1, "angle"⟩ (some []) none).meta = []
      ∧ (CircleSkyRegion.init ⟨0, 0, "icrs"⟩ ⟨1, "angle"⟩ (some []) none).visual = [] :=
  ⟨init_empty_on_falsy.1 _ _ _ _ (Or.inl rfl),
   init_empty_on_falsy.2.1 _ _ _ _ (Or.inr rfl),
   init_empty_on_falsy.2.2.1 _ _ _ _ (Or.inr rfl),
   init_empty_on_falsy.2.2.2 _ _ _ _ (Or.inl rfl)⟩
